import Mathlib

/-
  Shallow embedding of
  frontend/rust-lib/flowy-database2/src/services/field/type_options/type_option_cell.rs

  Conventions of the embedding:
  * Machine integers are `Nat` with an explicit `% 2 ^ 64` where the source
    truncates to `u64`.
  * The `DefaultHasher` of the Rust standard library is modelled by an
    arbitrary function `hash64 : List Nat → Nat` applied to the exact byte
    stream the source feeds the hasher, truncated to 64 bits.
  * The shared, lock-guarded `CellCache` handle is modelled by explicit state
    passing: every operation that may touch the cache takes the cache
    contents and returns the (possibly updated) contents.
  * Fallible Rust functions returning `FlowyResult` become `Except FlowyError`.
  * The per-kind concrete type options (`RichTextTypeOption`, … — external
    collaborators, not part of this file) are modelled abstractly: by a record
    of their trait methods where behaviour matters, and by a tagged
    (implementer kind, blob) pair where only construction matters.
-/

namespace AF

/-- Model of `FieldType` enum of flowy-database2: the closed set of 8 column kinds,
with discriminants 0–7 in declaration order. -/
inductive FieldType where
  | RichText
  | Number
  | DateTime
  | SingleSelect
  | MultiSelect
  | Checkbox
  | URL
  | Checklist
deriving DecidableEq, Repr

/-- The `decoded_field_type as u8` cast: the enum discriminant as one byte. -/
def FieldType.toU8 : FieldType → Nat
  | .RichText => 0
  | .Number => 1
  | .DateTime => 2
  | .SingleSelect => 3
  | .MultiSelect => 4
  | .Checkbox => 5
  | .URL => 6
  | .Checklist => 7

/-- Model of `TypeOptionData`: the opaque serialized configuration blob of one kind,
modelled by the byte stream its `Hash` implementation feeds a hasher. -/
structure TypeOptionData where
  bytes : List Nat
deriving DecidableEq, Repr

/-- Model of `collab_database::rows::Cell`: an opaque raw cell value, modelled by the
byte stream its `Hash` implementation feeds a hasher. -/
structure Cell where
  raw : List Nat
deriving DecidableEq, Repr

/-- Model of `collab_database::fields::Field`: identifier bytes, the declared active
kind (an `i64` in the source, already converted through `FieldType::from`
here), and the per-kind configuration blobs. -/
structure Field where
  id : List Nat
  field_type : FieldType
  type_options : FieldType → Option TypeOptionData

/-- Model of `Field::get_any_type_option`: the raw configuration blob stored on the
field for the given kind, if any. -/
def Field.get_any_type_option (f : Field) (ft : FieldType) : Option TypeOptionData :=
  f.type_options ft

/-- Model of `flowy_error::FlowyError`, kept abstract up to its message. -/
structure FlowyError where
  msg : String
deriving DecidableEq, Repr

/-- Model of `FilterType` of the filter service: identifies one filter by field id and
field type (only `field_type` is read in this file). -/
structure FilterType where
  field_id : List Nat
  field_type : FieldType

/-- The bytes the configuration blob contributes to the hasher: the blob's
`Hash` stream when `get_any_type_option` finds one, nothing otherwise. -/
def config_hash_bytes (field_rev : Field) (decoded_field_type : FieldType) : List Nat :=
  match field_rev.get_any_type_option decoded_field_type with
  | some type_option_data => type_option_data.bytes
  | none => []

/-- The byte stream `CellDataCacheKey::new` feeds the hasher, in source
order: the `Hash` of the configuration blob for the target kind when one is
present, then `field_rev.id.as_bytes()`, then the one-byte kind
discriminant, then the `Hash` of the cell. -/
def CellDataCacheKey.hash_input (field_rev : Field) (decoded_field_type : FieldType)
    (cell : Cell) : List Nat :=
  config_hash_bytes field_rev decoded_field_type ++
  field_rev.id ++ [decoded_field_type.toU8] ++ cell.raw

/-- Model of `CellDataCacheKey(u64)`: the finished 64-bit digest. -/
structure CellDataCacheKey where
  val : Nat
deriving DecidableEq, Repr

/-- Model of `CellDataCacheKey::new`: hash the input stream and keep the 64-bit
`finish` result of the hasher, modelled by truncating an arbitrary digest
function `hash64` to 64 bits. -/
def CellDataCacheKey.new (hash64 : List Nat → Nat) (field_rev : Field)
    (decoded_field_type : FieldType) (cell : Cell) : CellDataCacheKey :=
  ⟨hash64 (CellDataCacheKey.hash_input field_rev decoded_field_type cell) % 2 ^ 64⟩

/-- A closed universe of runtime types, modelling `std::any::TypeId`:
a code type with decidable equality (TypeId comparison) and the Lean type
each code denotes. -/
structure AnyUniverse where
  Code : Type
  el : Code → Type
  deq : DecidableEq Code

/-- Model of `BoxCellData(Box<dyn Any + Send + Sync>)`: one concrete decoded value
together with the code of its runtime type. -/
structure BoxCellData (u : AnyUniverse) where
  code : u.Code
  value : u.el code

/-- Model of `BoxCellData::new`. -/
def BoxCellData.new (u : AnyUniverse) (c : u.Code) (v : u.el c) : BoxCellData u :=
  ⟨c, v⟩

/-- Model of `Box<dyn Any>::downcast::<T>`: succeeds exactly when the stored runtime
type equals the requested one. -/
def BoxCellData.downcast (u : AnyUniverse) (b : BoxCellData u) (c : u.Code) :
    Option (u.el c) :=
  match u.deq b.code c with
  | isTrue h => some (h ▸ b.value)
  | isFalse _ => none

/-- Model of `BoxCellData::unbox_or_default::<T>`: the stored value on a type match,
`T::default()` otherwise (`dflt` stands for the `Default` instance). -/
def BoxCellData.unbox_or_default (u : AnyUniverse) (b : BoxCellData u) (c : u.Code)
    (dflt : u.el c) : u.el c :=
  match BoxCellData.downcast u b c with
  | some value => value
  | none => dflt

/-- Model of `BoxCellData::unbox_or_none::<T>`: the stored value on a type match,
`none` otherwise. -/
def BoxCellData.unbox_or_none (u : AnyUniverse) (b : BoxCellData u) (c : u.Code) :
    Option (u.el c) :=
  match BoxCellData.downcast u b c with
  | some value => some value
  | none => none

variable {CD CC CF S C F : Type}

/-- The contents of the shared `CellCache` (`AnyTypeCache<u64>`), viewed at
one decoded-value type `CD`: absent keys and keys holding a value of
another runtime type both read back as `none`. -/
def CellCacheState (CD : Type) : Type :=
  Nat → Option CD

/-- Model of `AnyTypeCache::insert` on the `u64`-keyed cell cache. -/
def CellCacheState.insert (σ : CellCacheState CD) (key : Nat) (cd : CD) :
    CellCacheState CD :=
  fun k => if k = key then some cd else σ k

/-- The capability contract one concrete type option satisfies
(`TypeOption + CellDataDecoder + CellDataChangeset + TypeOptionCellData +
TypeOptionTransform + TypeOptionCellDataFilter + TypeOptionCellDataCompare`),
with its three associated types `CellData`, `CellChangeset`, `CellFilter`
as parameters.  All methods are pure functions, as §5 of the design
requires of decode. -/
structure TypeOptionImpl (CD CC CF : Type) where
  default_cell_data : CD
  decode_cell_str : Cell → FieldType → Field → Except FlowyError CD
  from_changeset : String → Except FlowyError CC
  apply_changeset : CC → Option Cell → Except FlowyError (Cell × CD)
  apply_cmp : CD → CD → Ordering
  apply_filter : CF → FieldType → CD → Bool
  transformable : Bool
  transform_type_option_cell : Cell → FieldType → Field → Option CD

/-- Model of `TypeOptionCellDataHandlerImpl<T>`: one concrete implementer plus the
optional shared cache handles.  A present `CellCache` handle is the flag
`cell_data_cache = true`; its contents are threaded explicitly.  The
filter store is read-only here and modelled as a lookup function, with the
`downcast` to `CF` absorbed into it. -/
structure TypeOptionCellDataHandlerImpl (CD CC CF : Type) where
  inner : TypeOptionImpl CD CC CF
  cell_data_cache : Bool
  cell_filter_cache : Option (FilterType → Option CF)

/-- Model of `TypeOptionCellDataHandlerImpl::get_decoded_cell_data`: look the cell up
in the cache under its `CellDataCacheKey` when a cache handle is present;
on a miss, decode and (when a handle is present) store the decoded value
back under the same key. -/
def get_decoded_cell_data (hash64 : List Nat → Nat)
    (h : TypeOptionCellDataHandlerImpl CD CC CF) (σ : CellCacheState CD)
    (cell : Cell) (decoded_field_type : FieldType) (field : Field) :
    Except FlowyError CD × CellCacheState CD :=
  let key := CellDataCacheKey.new hash64 field decoded_field_type cell
  match (if h.cell_data_cache then σ key.val else none) with
  | some cell_data => (Except.ok cell_data, σ)
  | none =>
    match h.inner.decode_cell_str cell decoded_field_type field with
    | Except.error e => (Except.error e, σ)
    | Except.ok cell_data =>
      if h.cell_data_cache then
        (Except.ok cell_data, σ.insert key.val cell_data)
      else
        (Except.ok cell_data, σ)

/-- Model of `TypeOptionCellDataHandlerImpl::set_decoded_cell_data`: when a cache
handle is present, store the decoded value under the key built from the
field's current declared kind (`FieldType::from(field.field_type)`) and
the given cell. -/
def set_decoded_cell_data (hash64 : List Nat → Nat)
    (h : TypeOptionCellDataHandlerImpl CD CC CF) (σ : CellCacheState CD)
    (cell : Cell) (cell_data : CD) (field : Field) : CellCacheState CD :=
  if h.cell_data_cache then
    let field_type := field.field_type
    let key := CellDataCacheKey.new hash64 field field_type cell
    σ.insert key.val cell_data
  else
    σ

/-- Model of `Result::unwrap_or_default` on a `FlowyResult<CellData>`, with `dflt`
standing for the `Default` instance of the decoded-value type. -/
def unwrap_or_default (dflt : CD) : Except FlowyError CD → CD
  | Except.ok cell_data => cell_data
  | Except.error _ => dflt

/-- Model of `TypeOptionCellDataHandler::handle_cell_changeset`: parse the changeset
string, apply it, proactively cache the resulting decoded value, return
the new cell; parse and apply errors propagate. -/
def handle_cell_changeset (hash64 : List Nat → Nat)
    (h : TypeOptionCellDataHandlerImpl CD CC CF) (σ : CellCacheState CD)
    (cell_changeset : String) (old_cell : Option Cell) (field : Field) :
    Except FlowyError Cell × CellCacheState CD :=
  match h.inner.from_changeset cell_changeset with
  | Except.error e => (Except.error e, σ)
  | Except.ok changeset =>
    match h.inner.apply_changeset changeset old_cell with
    | Except.error e => (Except.error e, σ)
    | Except.ok (cell, cell_data) =>
      (Except.ok cell, set_decoded_cell_data hash64 h σ cell cell_data field)

/-- Model of `TypeOptionCellDataHandler::handle_cell_compare`: decode both sides
through the cache path under the field's declared kind, replacing either
side by the default decoded value when its decode fails, then apply the
type-specific comparison. -/
def handle_cell_compare (hash64 : List Nat → Nat)
    (h : TypeOptionCellDataHandlerImpl CD CC CF) (σ : CellCacheState CD)
    (left_cell right_cell : Cell) (field : Field) :
    Ordering × CellCacheState CD :=
  let field_type := field.field_type
  let left := get_decoded_cell_data hash64 h σ left_cell field_type field
  let right := get_decoded_cell_data hash64 h left.2 right_cell field_type field
  (h.inner.apply_cmp (unwrap_or_default h.inner.default_cell_data left.1)
    (unwrap_or_default h.inner.default_cell_data right.1), right.2)

/-- Model of `TypeOptionCellDataHandler::handle_cell_filter`: the `perform_filter`
closure chains the filter-store handle, the `FilterSpec` lookup and the
decode through `?`; `unwrap_or(true)` turns every missing step into
`true`. -/
def handle_cell_filter (hash64 : List Nat → Nat)
    (h : TypeOptionCellDataHandlerImpl CD CC CF) (σ : CellCacheState CD)
    (filter_type : FilterType) (field : Field) (cell : Cell) :
    Bool × CellCacheState CD :=
  match h.cell_filter_cache with
  | none => (true, σ)
  | some filter_cache =>
    match filter_cache filter_type with
    | none => (true, σ)
    | some cell_filter =>
      match get_decoded_cell_data hash64 h σ cell filter_type.field_type field with
      | (Except.error _, σ1) => (true, σ1)
      | (Except.ok cell_data, σ1) =>
        (h.inner.apply_filter cell_filter filter_type.field_type cell_data, σ1)

/-- Model of `TypeOptionCellDataHandler::get_cell_data`: when the implementer is
transformable and the transform produces a value, that value is used;
otherwise the cache path decodes.  The source wraps the result in
`BoxCellData::new`; the type erasure is the identity at this layer. -/
def get_cell_data (hash64 : List Nat → Nat)
    (h : TypeOptionCellDataHandlerImpl CD CC CF) (σ : CellCacheState CD)
    (cell : Cell) (decoded_field_type : FieldType) (field_rev : Field) :
    Except FlowyError CD × CellCacheState CD :=
  if h.inner.transformable then
    match h.inner.transform_type_option_cell cell decoded_field_type field_rev with
    | none => get_decoded_cell_data hash64 h σ cell decoded_field_type field_rev
    | some cell_data => (Except.ok cell_data, σ)
  else
    get_decoded_cell_data hash64 h σ cell decoded_field_type field_rev

/-- A concrete type option as built by the dispatch factory: the factory arm
for kind `k` deserializes the blob with `T::from` for the one implementer
type `T` bound to `k`.  Deserialization lives in the external implementers,
so the model keeps the pair (implementer kind, blob) it is applied to. -/
structure BoundTypeOption where
  bound_kind : FieldType
  data : TypeOptionData
deriving DecidableEq, Repr

/-- Model of `Field::get_type_option::<T>(field_type)`: look the blob up under
`field_type` and deserialize it into the implementer type `T`, here
identified by its bound kind `impl_kind`. -/
def Field.get_type_option (f : Field) (impl_kind : FieldType) (field_type : FieldType) :
    Option BoundTypeOption :=
  (f.type_options field_type).map (fun type_option_data => ⟨impl_kind, type_option_data⟩)

/-- The boxed `dyn TypeOptionCellDataHandler` produced by
`new_with_boxed`: the freshly built implementer plus clones of the two
caller-supplied cache handles (handle types `C` and `F` are opaque here). -/
structure BoxedCellDataHandler (C F : Type) where
  inner : BoundTypeOption
  cell_filter_cache : Option F
  cell_data_cache : Option C

/-- Model of `TypeOptionCellDataHandlerImpl::new_with_boxed`. -/
def new_with_boxed (inner : BoundTypeOption) (cell_filter_cache : Option F)
    (cell_data_cache : Option C) : BoxedCellDataHandler C F :=
  ⟨inner, cell_filter_cache, cell_data_cache⟩

/-- Model of `TypeOptionCellExt`: a field reference plus the optional cache handles
supplied by the caller. -/
structure TypeOptionCellExt (C F : Type) where
  field : Field
  cell_data_cache : Option C
  cell_filter_cache : Option F

/-- Model of `TypeOptionCellExt::get_type_option_cell_data_handler`: the closed,
8-arm match from `FieldType` to the one concrete implementer bound to that
kind; each arm deserializes the field's blob for the kind and wraps it
with the handles, and an absent blob yields `none`. -/
def get_type_option_cell_data_handler (ext : TypeOptionCellExt C F)
    (field_type : FieldType) : Option (BoxedCellDataHandler C F) :=
  match field_type with
  | FieldType.RichText =>
    (ext.field.get_type_option FieldType.RichText field_type).map
      (fun type_option =>
        new_with_boxed type_option ext.cell_filter_cache ext.cell_data_cache)
  | FieldType.Number =>
    (ext.field.get_type_option FieldType.Number field_type).map
      (fun type_option =>
        new_with_boxed type_option ext.cell_filter_cache ext.cell_data_cache)
  | FieldType.DateTime =>
    (ext.field.get_type_option FieldType.DateTime field_type).map
      (fun type_option =>
        new_with_boxed type_option ext.cell_filter_cache ext.cell_data_cache)
  | FieldType.SingleSelect =>
    (ext.field.get_type_option FieldType.SingleSelect field_type).map
      (fun type_option =>
        new_with_boxed type_option ext.cell_filter_cache ext.cell_data_cache)
  | FieldType.MultiSelect =>
    (ext.field.get_type_option FieldType.MultiSelect field_type).map
      (fun type_option =>
        new_with_boxed type_option ext.cell_filter_cache ext.cell_data_cache)
  | FieldType.Checkbox =>
    (ext.field.get_type_option FieldType.Checkbox field_type).map
      (fun type_option =>
        new_with_boxed type_option ext.cell_filter_cache ext.cell_data_cache)
  | FieldType.URL =>
    (ext.field.get_type_option FieldType.URL field_type).map
      (fun type_option =>
        new_with_boxed type_option ext.cell_filter_cache ext.cell_data_cache)
  | FieldType.Checklist =>
    (ext.field.get_type_option FieldType.Checklist field_type).map
      (fun type_option =>
        new_with_boxed type_option ext.cell_filter_cache ext.cell_data_cache)

/-- Model of `TypeOptionCellExt::get_cells::<T>`: resolves a handler for the field's
declared kind; the `Some` arm is `todo!()`, modelled by `none` (a panic),
while the `None` arm returns the empty vector. -/
def get_cells (T : Type) (ext : TypeOptionCellExt C F) : Option (List T) :=
  let field_type := ext.field.field_type
  match get_type_option_cell_data_handler ext field_type with
  | none => some []
  | some _ => none

/-- The `TypeOptionTransform + Serialize` surface of one concrete
implementer type with state type `S`: construction from a blob
(`T::from`), the `transformable` flag, the `transform_type_option` merge,
and `serde_json::to_string` serialization. -/
structure TransformableTypeOption (S : Type) where
  from_type_option_data : TypeOptionData → S
  transformable : S → Bool
  transform_type_option : S → FieldType → TypeOptionData → S
  json_str : S → String

/-- The blanket `TypeOptionTransformHandler::transform` for
`T : TypeOptionTransform + Serialize`: merge the old configuration only if
the implementer declares itself transformable, otherwise leave the state
unchanged. -/
def TypeOptionTransformHandler.transform (impl : TransformableTypeOption S)
    (s : S) (old_type_option_field_type : FieldType)
    (old_type_option_data : TypeOptionData) : S :=
  if impl.transformable s then
    impl.transform_type_option s old_type_option_field_type old_type_option_data
  else
    s

/-- Model of `get_type_option_transform_handler`: the closed 8-arm match from the
destination kind to its implementer; each arm builds the implementer from
the (cloned) blob.  `impls` supplies the external per-kind implementers,
collapsed onto one state type `S`; the result pairs the chosen
implementer with its freshly built state. -/
def get_type_option_transform_handler (impls : FieldType → TransformableTypeOption S)
    (type_option_data : TypeOptionData) (field_type : FieldType) :
    TransformableTypeOption S × S :=
  match field_type with
  | FieldType.RichText =>
    (impls FieldType.RichText,
      (impls FieldType.RichText).from_type_option_data type_option_data)
  | FieldType.Number =>
    (impls FieldType.Number,
      (impls FieldType.Number).from_type_option_data type_option_data)
  | FieldType.DateTime =>
    (impls FieldType.DateTime,
      (impls FieldType.DateTime).from_type_option_data type_option_data)
  | FieldType.SingleSelect =>
    (impls FieldType.SingleSelect,
      (impls FieldType.SingleSelect).from_type_option_data type_option_data)
  | FieldType.MultiSelect =>
    (impls FieldType.MultiSelect,
      (impls FieldType.MultiSelect).from_type_option_data type_option_data)
  | FieldType.Checkbox =>
    (impls FieldType.Checkbox,
      (impls FieldType.Checkbox).from_type_option_data type_option_data)
  | FieldType.URL =>
    (impls FieldType.URL,
      (impls FieldType.URL).from_type_option_data type_option_data)
  | FieldType.Checklist =>
    (impls FieldType.Checklist,
      (impls FieldType.Checklist).from_type_option_data type_option_data)

/-- Free function `transform_type_option`: build the destination kind's
handler from the new blob; if an old blob is supplied, run the handler's
`transform` with the old kind and blob; serialize the result. -/
def transform_type_option (impls : FieldType → TransformableTypeOption S)
    (type_option_data : TypeOptionData) (new_field_type : FieldType)
    (old_type_option_data : Option TypeOptionData) (old_field_type : FieldType) :
    String :=
  let transform_handler :=
    get_type_option_transform_handler impls type_option_data new_field_type
  let state :=
    match old_type_option_data with
    | some old_data =>
      TypeOptionTransformHandler.transform transform_handler.1 transform_handler.2
        old_field_type old_data
    | none => transform_handler.2
  transform_handler.1.json_str state

/-
  Concrete instances used to evaluate theorems with hypotheses.
-/

/-- A concrete two-type universe: code `true` denotes `Nat`, code `false`
denotes `Bool`. -/
def natBoolUniverse : AnyUniverse :=
  ⟨Bool, fun b => cond b Nat Bool, inferInstance⟩

/-- A concrete field carrying a configuration blob only for `Number`. -/
def c3Field : Field :=
  ⟨[1], FieldType.Number,
    fun ft => if ft = FieldType.Number then some ⟨[7]⟩ else none⟩

/-- An extension object over `c3Field` with no cache handles. -/
def c3Ext : TypeOptionCellExt Unit Unit := ⟨c3Field, none, none⟩

/-- A concrete field whose declared kind `RichText` carries a blob. -/
def c10FieldWithBlob : Field :=
  ⟨[2], FieldType.RichText,
    fun ft => if ft = FieldType.RichText then some ⟨[9]⟩ else none⟩

/-- A concrete field whose declared kind carries no blob. -/
def c10FieldNoBlob : Field := ⟨[3], FieldType.URL, fun _ => none⟩

/-- A non-transformable implementer family over the unit state. -/
def c4Impls : FieldType → TransformableTypeOption Unit :=
  fun _ => ⟨fun _ => (), fun _ => false, fun s _ _ => s, fun _ => "cfg"⟩

/-- A field with configuration bytes `[5]` for every kind and id bytes `[1]`. -/
def c7FieldA : Field := ⟨[1], FieldType.RichText, fun _ => some ⟨[5]⟩⟩

/-- Like `c7FieldA` but with configuration bytes `[6]`. -/
def c7FieldB : Field := ⟨[1], FieldType.RichText, fun _ => some ⟨[6]⟩⟩

/-- Like `c7FieldA` but with id bytes `[2]`. -/
def c7FieldC : Field := ⟨[2], FieldType.RichText, fun _ => some ⟨[5]⟩⟩

/-- A cell with raw bytes `[0]`. -/
def c7CellA : Cell := ⟨[0]⟩

/-- A cell with raw bytes `[1]`. -/
def c7CellB : Cell := ⟨[1]⟩

/-- An implementer over `Nat` cell data whose decode always succeeds with 5
and whose filter predicate returns the looked-up spec (a `Bool`). -/
def c1OkImpl : TypeOptionImpl Nat Unit Bool :=
  ⟨0, fun _ _ _ => Except.ok 5, fun _ => Except.ok (),
    fun _ _ => Except.ok (⟨[1]⟩, 5), fun _ _ => Ordering.eq,
    fun spec _ _ => spec, false, fun _ _ _ => none⟩

/-- Like `c1OkImpl` but decode always fails. -/
def c1ErrImpl : TypeOptionImpl Nat Unit Bool :=
  ⟨0, fun _ _ _ => Except.error ⟨"bad"⟩, fun _ => Except.ok (),
    fun _ _ => Except.ok (⟨[1]⟩, 5), fun _ _ => Ordering.eq,
    fun spec _ _ => spec, false, fun _ _ _ => none⟩

/-- A handler with no filter-store handle. -/
def c1NoStoreHandler : TypeOptionCellDataHandlerImpl Nat Unit Bool :=
  ⟨c1OkImpl, false, none⟩

/-- A handler whose filter store holds no spec. -/
def c1EmptyStoreHandler : TypeOptionCellDataHandlerImpl Nat Unit Bool :=
  ⟨c1OkImpl, false, some (fun _ => none)⟩

/-- A handler whose filter store answers every lookup with the spec `true`
and whose decode fails. -/
def c1ErrDecodeHandler : TypeOptionCellDataHandlerImpl Nat Unit Bool :=
  ⟨c1ErrImpl, false, some (fun _ => some true)⟩

/-- A handler whose filter store answers every lookup with the spec `true`
and whose decode succeeds. -/
def c1OkDecodeHandler : TypeOptionCellDataHandlerImpl Nat Unit Bool :=
  ⟨c1OkImpl, false, some (fun _ => some true)⟩

/-- A concrete filter identity. -/
def c1Filter : FilterType := ⟨[1], FieldType.RichText⟩

/-- A field with no configuration blobs. -/
def cPlainField : Field := ⟨[1], FieldType.RichText, fun _ => none⟩

/-- The everywhere-empty cell-data cache over `Nat`. -/
def cEmptyCache : CellCacheState Nat := fun _ => none

/-- An implementer over `Nat` cell data whose decode always fails, used to
exercise the default-substitution path of compare. -/
def c2ErrImpl : TypeOptionImpl Nat Unit Unit :=
  ⟨9, fun _ _ _ => Except.error ⟨"bad"⟩, fun _ => Except.ok (),
    fun _ _ => Except.ok (⟨[1]⟩, 5), fun a b => compare a b,
    fun _ _ _ => true, false, fun _ _ _ => none⟩

/-- A cache-less handler around `c2ErrImpl`. -/
def c2ErrHandler : TypeOptionCellDataHandlerImpl Nat Unit Unit :=
  ⟨c2ErrImpl, false, none⟩

/-- An implementer whose changeset parsing accepts everything and whose
apply produces the cell `[3]` with decoded value 8. -/
def c8OkImpl : TypeOptionImpl Nat Unit Unit :=
  ⟨0, fun _ _ _ => Except.ok 5, fun _ => Except.ok (),
    fun _ _ => Except.ok (⟨[3]⟩, 8), fun _ _ => Ordering.eq,
    fun _ _ _ => true, false, fun _ _ _ => none⟩

/-- Like `c8OkImpl` but changeset parsing always fails. -/
def c8ParseErrImpl : TypeOptionImpl Nat Unit Unit :=
  ⟨0, fun _ _ _ => Except.ok 5, fun _ => Except.error ⟨"parse"⟩,
    fun _ _ => Except.ok (⟨[3]⟩, 8), fun _ _ => Ordering.eq,
    fun _ _ _ => true, false, fun _ _ _ => none⟩

/-- Like `c8OkImpl` but applying the changeset always fails. -/
def c8ApplyErrImpl : TypeOptionImpl Nat Unit Unit :=
  ⟨0, fun _ _ _ => Except.ok 5, fun _ => Except.ok (),
    fun _ _ => Except.error ⟨"apply"⟩, fun _ _ => Ordering.eq,
    fun _ _ _ => true, false, fun _ _ _ => none⟩

/-- A handler around `c8OkImpl` with a cache handle present. -/
def c8OkHandler : TypeOptionCellDataHandlerImpl Nat Unit Unit :=
  ⟨c8OkImpl, true, none⟩

/-- A handler around `c8ParseErrImpl`. -/
def c8ParseErrHandler : TypeOptionCellDataHandlerImpl Nat Unit Unit :=
  ⟨c8ParseErrImpl, true, none⟩

/-- A handler around `c8ApplyErrImpl`. -/
def c8ApplyErrHandler : TypeOptionCellDataHandlerImpl Nat Unit Unit :=
  ⟨c8ApplyErrImpl, true, none⟩

/-- A transformable implementer whose transform always produces 42 while
plain decode produces 5. -/
def c5TransImpl : TypeOptionImpl Nat Unit Unit :=
  ⟨0, fun _ _ _ => Except.ok 5, fun _ => Except.ok (),
    fun _ _ => Except.ok (⟨[1]⟩, 5), fun _ _ => Ordering.eq,
    fun _ _ _ => true, true, fun _ _ _ => some 42⟩

/-- A transformable implementer whose transform never produces a value. -/
def c5TransNoneImpl : TypeOptionImpl Nat Unit Unit :=
  ⟨0, fun _ _ _ => Except.ok 5, fun _ => Except.ok (),
    fun _ _ => Except.ok (⟨[1]⟩, 5), fun _ _ => Ordering.eq,
    fun _ _ _ => true, true, fun _ _ _ => none⟩

/-- A non-transformable implementer decoding to 5. -/
def c5PlainImpl : TypeOptionImpl Nat Unit Unit :=
  ⟨0, fun _ _ _ => Except.ok 5, fun _ => Except.ok (),
    fun _ _ => Except.ok (⟨[1]⟩, 5), fun _ _ => Ordering.eq,
    fun _ _ _ => true, false, fun _ _ _ => none⟩

/-- A non-transformable implementer whose decode fails. -/
def c5ErrImpl : TypeOptionImpl Nat Unit Unit :=
  ⟨0, fun _ _ _ => Except.error ⟨"bad"⟩, fun _ => Except.ok (),
    fun _ _ => Except.ok (⟨[1]⟩, 5), fun _ _ => Ordering.eq,
    fun _ _ _ => true, false, fun _ _ _ => none⟩

/-- A handler around `c5TransImpl` with a cache handle present. -/
def c5TransHandler : TypeOptionCellDataHandlerImpl Nat Unit Unit :=
  ⟨c5TransImpl, true, none⟩

/-- A handler around `c5TransNoneImpl` with a cache handle present. -/
def c5TransNoneHandler : TypeOptionCellDataHandlerImpl Nat Unit Unit :=
  ⟨c5TransNoneImpl, true, none⟩

/-- A handler around `c5PlainImpl` with a cache handle present. -/
def c5PlainHandler : TypeOptionCellDataHandlerImpl Nat Unit Unit :=
  ⟨c5PlainImpl, true, none⟩

/-- A handler around `c5PlainImpl` with no cache handle. -/
def c5NoCacheHandler : TypeOptionCellDataHandlerImpl Nat Unit Unit :=
  ⟨c5PlainImpl, false, none⟩

/-- A handler around `c5ErrImpl` with a cache handle present. -/
def c5ErrHandler : TypeOptionCellDataHandlerImpl Nat Unit Unit :=
  ⟨c5ErrImpl, true, none⟩

/-- A cache whose every slot holds 7. -/
def c5FullCache : CellCacheState Nat := fun _ => some 7

/-
  Theorems.
-/

theorem FieldType.toU8_injective : Function.Injective FieldType.toU8 := by
  intro a b h
  cases a <;> cases b <;> first | rfl | simp [FieldType.toU8] at h

theorem downcast_new_self (u : AnyUniverse) (c : u.Code) (v : u.el c) :
    BoxCellData.downcast u (BoxCellData.new u c v) c = some v := by
  have hd : u.deq c c = isTrue rfl := Subsingleton.elim _ _
  simp only [BoxCellData.downcast, BoxCellData.new, hd]

theorem downcast_new_ne (u : AnyUniverse) (c c2 : u.Code) (v : u.el c)
    (hne : c2 ≠ c) : BoxCellData.downcast u (BoxCellData.new u c v) c2 = none := by
  have hd : u.deq c c2 = isFalse (fun h => hne h.symm) := Subsingleton.elim _ _
  simp only [BoxCellData.downcast, BoxCellData.new, hd]

/-- C9: a value stored in `BoxCellData` is returned exactly on a matching
typed extraction, on both the non-strict (`unbox_or_default`) and strict
(`unbox_or_none`) paths; a mismatched extraction yields the requested
type's default value on the non-strict path and `none` on the strict
path. -/
theorem c9_box_cell_data_extraction (u : AnyUniverse) (c c2 : u.Code)
    (v : u.el c) (dflt : u.el c) (dflt2 : u.el c2) :
    (BoxCellData.unbox_or_default u (BoxCellData.new u c v) c dflt = v ∧
      BoxCellData.unbox_or_none u (BoxCellData.new u c v) c = some v) ∧
    (c2 ≠ c →
      BoxCellData.unbox_or_default u (BoxCellData.new u c v) c2 dflt2 = dflt2 ∧
      BoxCellData.unbox_or_none u (BoxCellData.new u c v) c2 = none) := by
  constructor
  · constructor
    · unfold BoxCellData.unbox_or_default
      rw [downcast_new_self]
    · unfold BoxCellData.unbox_or_none
      rw [downcast_new_self]
  · intro hne
    constructor
    · unfold BoxCellData.unbox_or_default
      rw [downcast_new_ne u c c2 v hne]
    · unfold BoxCellData.unbox_or_none
      rw [downcast_new_ne u c c2 v hne]

theorem c9_box_cell_data_extraction_witness :
    (BoxCellData.unbox_or_default natBoolUniverse
        (BoxCellData.new natBoolUniverse true ((42 : Nat) : natBoolUniverse.el true))
        true ((0 : Nat) : natBoolUniverse.el true) = ((42 : Nat) : natBoolUniverse.el true) ∧
      BoxCellData.unbox_or_none natBoolUniverse
        (BoxCellData.new natBoolUniverse true ((42 : Nat) : natBoolUniverse.el true))
        true = some ((42 : Nat) : natBoolUniverse.el true)) ∧
    (BoxCellData.unbox_or_default natBoolUniverse
        (BoxCellData.new natBoolUniverse true ((42 : Nat) : natBoolUniverse.el true))
        false ((false : Bool) : natBoolUniverse.el false) =
          ((false : Bool) : natBoolUniverse.el false) ∧
      BoxCellData.unbox_or_none natBoolUniverse
        (BoxCellData.new natBoolUniverse true ((42 : Nat) : natBoolUniverse.el true))
        false = none) :=
  ⟨(c9_box_cell_data_extraction natBoolUniverse true false ((42 : Nat) : natBoolUniverse.el true)
      ((0 : Nat) : natBoolUniverse.el true) ((false : Bool) : natBoolUniverse.el false)).1,
    (c9_box_cell_data_extraction natBoolUniverse true false ((42 : Nat) : natBoolUniverse.el true)
      ((0 : Nat) : natBoolUniverse.el true) ((false : Bool) : natBoolUniverse.el false)).2
      (fun h => Bool.noConfusion h)⟩

theorem get_type_option_cell_data_handler_eq (ext : TypeOptionCellExt C F)
    (ft : FieldType) :
    get_type_option_cell_data_handler ext ft =
      (ext.field.type_options ft).map
        (fun d =>
          ⟨⟨ft, d⟩, ext.cell_filter_cache, ext.cell_data_cache⟩) := by
  cases ft <;>
    simp only [get_type_option_cell_data_handler, Field.get_type_option,
      new_with_boxed, Option.map_map] <;>
    rfl

/-- C3: the dispatch factory produces no handler exactly when the field
carries no configuration blob for the requested kind; when a blob is
present, the handler wraps the implementer bound to exactly that kind,
deserialized from that blob, together with the caller-supplied cache
handles — for each of the 8 kinds, with no fallthrough arm. -/
theorem c3_dispatch_exhaustive (ext : TypeOptionCellExt C F) (ft : FieldType) :
    (get_type_option_cell_data_handler ext ft = none ↔
      ext.field.type_options ft = none) ∧
    (∀ d : TypeOptionData, ext.field.type_options ft = some d →
      get_type_option_cell_data_handler ext ft =
        some ⟨⟨ft, d⟩, ext.cell_filter_cache, ext.cell_data_cache⟩) := by
  rw [get_type_option_cell_data_handler_eq]
  constructor
  · cases ext.field.type_options ft <;> simp
  · intro d hd
    rw [hd]
    rfl

theorem c3_dispatch_exhaustive_witness :
    get_type_option_cell_data_handler c3Ext FieldType.Number =
      some ⟨⟨FieldType.Number, ⟨[7]⟩⟩, none, none⟩ ∧
    get_type_option_cell_data_handler c3Ext FieldType.Checkbox = none :=
  ⟨(c3_dispatch_exhaustive c3Ext FieldType.Number).2 ⟨[7]⟩ rfl,
    (c3_dispatch_exhaustive c3Ext FieldType.Checkbox).1.mpr rfl⟩

/-- C10: `get_cells` reaches the `todo!()` panic (modelled `none`) exactly
when a handler resolves for the field's declared kind, i.e. when the
field carries a configuration blob for it; with no blob it returns the
empty vector. -/
theorem c10_get_cells_unimplemented (T : Type) (ext : TypeOptionCellExt C F) :
    (ext.field.type_options ext.field.field_type = none →
      get_cells T ext = some []) ∧
    (∀ d : TypeOptionData,
      ext.field.type_options ext.field.field_type = some d →
      get_cells T ext = none) := by
  constructor
  · intro h
    simp [get_cells, get_type_option_cell_data_handler_eq, h]
  · intro d hd
    simp [get_cells, get_type_option_cell_data_handler_eq, hd]

theorem c10_get_cells_unimplemented_witness :
    get_cells Nat (⟨c10FieldWithBlob, none, none⟩ : TypeOptionCellExt Unit Unit) =
      none ∧
    get_cells Nat (⟨c10FieldNoBlob, none, none⟩ : TypeOptionCellExt Unit Unit) =
      some [] :=
  ⟨(c10_get_cells_unimplemented Nat ⟨c10FieldWithBlob, none, none⟩).2 ⟨[9]⟩ rfl,
    (c10_get_cells_unimplemented Nat ⟨c10FieldNoBlob, none, none⟩).1 rfl⟩

theorem get_type_option_transform_handler_eq
    (impls : FieldType → TransformableTypeOption S)
    (type_option_data : TypeOptionData) (field_type : FieldType) :
    get_type_option_transform_handler impls type_option_data field_type =
      (impls field_type,
        (impls field_type).from_type_option_data type_option_data) := by
  cases field_type <;> rfl

/-- C4: when the destination kind's implementer declares itself
non-transformable on the state built from the new blob, supplying an old
(kind, blob) pair to `transform_type_option` yields exactly the same
serialized output as supplying none: the old configuration has zero
influence. -/
theorem c4_non_transformable_purity
    (impls : FieldType → TransformableTypeOption S)
    (type_option_data : TypeOptionData) (new_field_type : FieldType)
    (old_data : TypeOptionData) (old_field_type : FieldType)
    (hnt : (impls new_field_type).transformable
        ((impls new_field_type).from_type_option_data type_option_data) = false) :
    transform_type_option impls type_option_data new_field_type (some old_data)
        old_field_type =
      transform_type_option impls type_option_data new_field_type none
        old_field_type := by
  unfold transform_type_option
  rw [get_type_option_transform_handler_eq]
  simp [TypeOptionTransformHandler.transform, hnt]

/-- C7: the cache key is the 64-bit digest of the byte stream assembled in
the fixed order configuration bytes (when present), field id bytes, kind
discriminant byte, raw cell bytes; and changing any one of the four
components while the others stay fixed changes the key input. -/
theorem c7_cache_key_digest (hash64 : List Nat → Nat) (f f2 : Field)
    (ft ft2 : FieldType) (c c2 : Cell) (d d2 : TypeOptionData) :
    ((CellDataCacheKey.new hash64 f ft c).val =
        hash64 (config_hash_bytes f ft ++ f.id ++ [ft.toU8] ++ c.raw) % 2 ^ 64 ∧
      (CellDataCacheKey.new hash64 f ft c).val < 2 ^ 64) ∧
    (f.type_options ft = some d → f2.type_options ft = some d2 → f.id = f2.id →
      d.bytes ≠ d2.bytes →
      CellDataCacheKey.hash_input f ft c ≠ CellDataCacheKey.hash_input f2 ft c) ∧
    (f.type_options ft = f2.type_options ft → f.id ≠ f2.id →
      CellDataCacheKey.hash_input f ft c ≠ CellDataCacheKey.hash_input f2 ft c) ∧
    (ft ≠ ft2 →
      CellDataCacheKey.hash_input f ft c ≠ CellDataCacheKey.hash_input f ft2 c) ∧
    (c.raw ≠ c2.raw →
      CellDataCacheKey.hash_input f ft c ≠ CellDataCacheKey.hash_input f ft c2) := by
  refine ⟨⟨rfl, Nat.mod_lt _ (by norm_num)⟩, ?_, ?_, ?_, ?_⟩
  · intro h1 h2 hid hne heq
    have hc1 : config_hash_bytes f ft = d.bytes := by
      simp [config_hash_bytes, Field.get_any_type_option, h1]
    have hc2 : config_hash_bytes f2 ft = d2.bytes := by
      simp [config_hash_bytes, Field.get_any_type_option, h2]
    unfold CellDataCacheKey.hash_input at heq
    rw [hc1, hc2, hid] at heq
    exact hne
      (List.append_cancel_right
        (List.append_cancel_right (List.append_cancel_right heq)))
  · intro hopt hne heq
    have hc : config_hash_bytes f ft = config_hash_bytes f2 ft := by
      simp [config_hash_bytes, Field.get_any_type_option, hopt]
    unfold CellDataCacheKey.hash_input at heq
    rw [hc] at heq
    exact hne
      (List.append_cancel_left
        (List.append_cancel_right (List.append_cancel_right heq)))
  · intro hne heq
    unfold CellDataCacheKey.hash_input at heq
    have hmid := List.append_cancel_right heq
    have h1 := congrArg List.reverse hmid
    simp only [List.reverse_append, List.reverse_cons, List.reverse_nil,
      List.nil_append, List.singleton_append, List.cons_append,
      List.append_assoc] at h1
    injection h1 with hb _
    exact hne (FieldType.toU8_injective hb)
  · intro hne heq
    unfold CellDataCacheKey.hash_input at heq
    exact hne (List.append_cancel_left heq)

theorem c7_cache_key_digest_witness :
    (CellDataCacheKey.new List.length c7FieldA FieldType.RichText c7CellA).val <
      2 ^ 64 ∧
    CellDataCacheKey.hash_input c7FieldA FieldType.RichText c7CellA ≠
      CellDataCacheKey.hash_input c7FieldB FieldType.RichText c7CellA ∧
    CellDataCacheKey.hash_input c7FieldA FieldType.RichText c7CellA ≠
      CellDataCacheKey.hash_input c7FieldC FieldType.RichText c7CellA ∧
    CellDataCacheKey.hash_input c7FieldA FieldType.RichText c7CellA ≠
      CellDataCacheKey.hash_input c7FieldA FieldType.Number c7CellA ∧
    CellDataCacheKey.hash_input c7FieldA FieldType.RichText c7CellA ≠
      CellDataCacheKey.hash_input c7FieldA FieldType.RichText c7CellB :=
  ⟨(c7_cache_key_digest List.length c7FieldA c7FieldB FieldType.RichText
      FieldType.Number c7CellA c7CellB ⟨[5]⟩ ⟨[6]⟩).1.2,
    (c7_cache_key_digest List.length c7FieldA c7FieldB FieldType.RichText
      FieldType.Number c7CellA c7CellB ⟨[5]⟩ ⟨[6]⟩).2.1 rfl rfl rfl (by decide),
    (c7_cache_key_digest List.length c7FieldA c7FieldC FieldType.RichText
      FieldType.Number c7CellA c7CellB ⟨[5]⟩ ⟨[6]⟩).2.2.1 rfl (by decide),
    (c7_cache_key_digest List.length c7FieldA c7FieldB FieldType.RichText
      FieldType.Number c7CellA c7CellB ⟨[5]⟩ ⟨[6]⟩).2.2.2.1 (by decide),
    (c7_cache_key_digest List.length c7FieldA c7FieldB FieldType.RichText
      FieldType.Number c7CellA c7CellB ⟨[5]⟩ ⟨[6]⟩).2.2.2.2 (by decide)⟩

theorem c4_non_transformable_purity_witness :
    transform_type_option c4Impls ⟨[1]⟩ FieldType.RichText (some ⟨[2]⟩)
        FieldType.Number =
      transform_type_option c4Impls ⟨[1]⟩ FieldType.RichText none
        FieldType.Number :=
  c4_non_transformable_purity c4Impls ⟨[1]⟩ FieldType.RichText ⟨[2]⟩
    FieldType.Number rfl

/-- C1: `handle_cell_filter` returns `true` when no filter-store handle was
supplied at construction, when the store holds no `FilterSpec` under the
requested filter identity, or when the decode path fails; it returns the
predicate's `Matches` result exactly when a spec is found and the decode
path succeeds — a cell is never hidden by an internal error or a missing
predicate. -/
theorem c1_fail_open_filter (hash64 : List Nat → Nat)
    (h : TypeOptionCellDataHandlerImpl CD CC CF) (σ : CellCacheState CD)
    (filter_type : FilterType) (field : Field) (cell : Cell) :
    (h.cell_filter_cache = none →
      handle_cell_filter hash64 h σ filter_type field cell = (true, σ)) ∧
    (∀ fc, h.cell_filter_cache = some fc → fc filter_type = none →
      handle_cell_filter hash64 h σ filter_type field cell = (true, σ)) ∧
    (∀ fc spec e, h.cell_filter_cache = some fc → fc filter_type = some spec →
      (get_decoded_cell_data hash64 h σ cell filter_type.field_type field).1 =
        Except.error e →
      (handle_cell_filter hash64 h σ filter_type field cell).1 = true) ∧
    (∀ fc spec cd, h.cell_filter_cache = some fc → fc filter_type = some spec →
      (get_decoded_cell_data hash64 h σ cell filter_type.field_type field).1 =
        Except.ok cd →
      (handle_cell_filter hash64 h σ filter_type field cell).1 =
        h.inner.apply_filter spec filter_type.field_type cd) := by
  refine ⟨?_, ?_, ?_, ?_⟩
  · intro hc
    simp [handle_cell_filter, hc]
  · intro fc hc hspec
    simp [handle_cell_filter, hc, hspec]
  · intro fc spec e hc hspec herr
    rcases hg : get_decoded_cell_data hash64 h σ cell filter_type.field_type field
      with ⟨res, σ1⟩
    rw [hg] at herr
    cases res with
    | error err => simp [handle_cell_filter, hc, hspec, hg]
    | ok cd => exact absurd herr (by simp)
  · intro fc spec cd hc hspec hok
    rcases hg : get_decoded_cell_data hash64 h σ cell filter_type.field_type field
      with ⟨res, σ1⟩
    rw [hg] at hok
    simp only [Prod.fst] at hok
    subst hok
    simp [handle_cell_filter, hc, hspec, hg]

theorem c1_fail_open_filter_witness :
    handle_cell_filter List.length c1NoStoreHandler cEmptyCache c1Filter
        cPlainField c7CellA = (true, cEmptyCache) ∧
    handle_cell_filter List.length c1EmptyStoreHandler cEmptyCache c1Filter
        cPlainField c7CellA = (true, cEmptyCache) ∧
    (handle_cell_filter List.length c1ErrDecodeHandler cEmptyCache c1Filter
        cPlainField c7CellA).1 = true ∧
    (handle_cell_filter List.length c1OkDecodeHandler cEmptyCache c1Filter
        cPlainField c7CellA).1 =
      c1OkImpl.apply_filter true c1Filter.field_type 5 :=
  ⟨(c1_fail_open_filter List.length c1NoStoreHandler cEmptyCache c1Filter
      cPlainField c7CellA).1 rfl,
    (c1_fail_open_filter List.length c1EmptyStoreHandler cEmptyCache c1Filter
      cPlainField c7CellA).2.1 (fun _ => none) rfl rfl,
    (c1_fail_open_filter List.length c1ErrDecodeHandler cEmptyCache c1Filter
      cPlainField c7CellA).2.2.1 (fun _ => some true) true ⟨"bad"⟩ rfl rfl rfl,
    (c1_fail_open_filter List.length c1OkDecodeHandler cEmptyCache c1Filter
      cPlainField c7CellA).2.2.2 (fun _ => some true) true 5 rfl rfl rfl⟩

/-- C2: `handle_cell_compare` always produces an `Ordering` and never an
error: both cells are decoded through the cache path under the field's
declared kind, any side whose decode path fails is replaced by the
implementer's default decoded value, and the type-specific comparison is
applied to the two resulting values; in particular, when both sides fail
to decode the result compares the two defaults. -/
theorem c2_compare_never_fails (hash64 : List Nat → Nat)
    (h : TypeOptionCellDataHandlerImpl CD CC CF) (σ : CellCacheState CD)
    (left_cell right_cell : Cell) (field : Field) :
    handle_cell_compare hash64 h σ left_cell right_cell field =
      (h.inner.apply_cmp
        (unwrap_or_default h.inner.default_cell_data
          (get_decoded_cell_data hash64 h σ left_cell field.field_type field).1)
        (unwrap_or_default h.inner.default_cell_data
          (get_decoded_cell_data hash64 h
            (get_decoded_cell_data hash64 h σ left_cell field.field_type field).2
            right_cell field.field_type field).1),
        (get_decoded_cell_data hash64 h
          (get_decoded_cell_data hash64 h σ left_cell field.field_type field).2
          right_cell field.field_type field).2) ∧
    (∀ el er,
      (get_decoded_cell_data hash64 h σ left_cell field.field_type field).1 =
        Except.error el →
      (get_decoded_cell_data hash64 h
          (get_decoded_cell_data hash64 h σ left_cell field.field_type field).2
          right_cell field.field_type field).1 = Except.error er →
      (handle_cell_compare hash64 h σ left_cell right_cell field).1 =
        h.inner.apply_cmp h.inner.default_cell_data h.inner.default_cell_data) := by
  constructor
  · rfl
  · intro el er hl hr
    simp [handle_cell_compare, hl, hr, unwrap_or_default]

theorem c2_compare_never_fails_witness :
    (handle_cell_compare List.length c2ErrHandler cEmptyCache c7CellA c7CellB
        cPlainField).1 = c2ErrImpl.apply_cmp 9 9 :=
  (c2_compare_never_fails List.length c2ErrHandler cEmptyCache c7CellA c7CellB
      cPlainField).2 ⟨"bad"⟩ ⟨"bad"⟩ rfl rfl

/-- C8: `handle_cell_changeset` fails exactly when parsing the changeset or
applying it fails, propagating that error unchanged with the cache
untouched; on success it returns the new cell and, when a cache handle is
present, stores the resulting decoded value under the key built from the
field's current declared kind and the new cell (and touches nothing when
no handle is present). -/
theorem c8_changeset_propagates (hash64 : List Nat → Nat)
    (h : TypeOptionCellDataHandlerImpl CD CC CF) (σ : CellCacheState CD)
    (cell_changeset : String) (old_cell : Option Cell) (field : Field) :
    (∀ e, h.inner.from_changeset cell_changeset = Except.error e →
      handle_cell_changeset hash64 h σ cell_changeset old_cell field =
        (Except.error e, σ)) ∧
    (∀ cs e, h.inner.from_changeset cell_changeset = Except.ok cs →
      h.inner.apply_changeset cs old_cell = Except.error e →
      handle_cell_changeset hash64 h σ cell_changeset old_cell field =
        (Except.error e, σ)) ∧
    (∀ cs cell cd, h.inner.from_changeset cell_changeset = Except.ok cs →
      h.inner.apply_changeset cs old_cell = Except.ok (cell, cd) →
      (handle_cell_changeset hash64 h σ cell_changeset old_cell field).1 =
          Except.ok cell ∧
        (h.cell_data_cache = true →
          (handle_cell_changeset hash64 h σ cell_changeset old_cell field).2 =
            σ.insert
              (CellDataCacheKey.new hash64 field field.field_type cell).val cd) ∧
        (h.cell_data_cache = false →
          (handle_cell_changeset hash64 h σ cell_changeset old_cell field).2 =
            σ)) := by
  refine ⟨?_, ?_, ?_⟩
  · intro e he
    simp [handle_cell_changeset, he]
  · intro cs e hcs he
    simp [handle_cell_changeset, hcs, he]
  · intro cs cell cd hcs happ
    refine ⟨?_, ?_, ?_⟩
    · simp [handle_cell_changeset, hcs, happ]
    · intro hc
      simp [handle_cell_changeset, hcs, happ, set_decoded_cell_data, hc]
    · intro hc
      simp [handle_cell_changeset, hcs, happ, set_decoded_cell_data, hc]

theorem c8_changeset_propagates_witness :
    handle_cell_changeset List.length c8ParseErrHandler cEmptyCache "x" none
        cPlainField = (Except.error ⟨"parse"⟩, cEmptyCache) ∧
    handle_cell_changeset List.length c8ApplyErrHandler cEmptyCache "x" none
        cPlainField = (Except.error ⟨"apply"⟩, cEmptyCache) ∧
    (handle_cell_changeset List.length c8OkHandler cEmptyCache "x" none
        cPlainField).1 = Except.ok ⟨[3]⟩ ∧
    (handle_cell_changeset List.length c8OkHandler cEmptyCache "x" none
        cPlainField).2 =
      cEmptyCache.insert
        (CellDataCacheKey.new List.length cPlainField cPlainField.field_type
          ⟨[3]⟩).val 8 :=
  ⟨(c8_changeset_propagates List.length c8ParseErrHandler cEmptyCache "x" none
      cPlainField).1 ⟨"parse"⟩ rfl,
    (c8_changeset_propagates List.length c8ApplyErrHandler cEmptyCache "x" none
      cPlainField).2.1 () ⟨"apply"⟩ rfl rfl,
    ((c8_changeset_propagates List.length c8OkHandler cEmptyCache "x" none
      cPlainField).2.2 () ⟨[3]⟩ 8 rfl rfl).1,
    ((c8_changeset_propagates List.length c8OkHandler cEmptyCache "x" none
      cPlainField).2.2 () ⟨[3]⟩ 8 rfl rfl).2.1 rfl⟩

theorem CellCacheState.insert_self (σ : CellCacheState CD) (k : Nat) (v : CD) :
    σ.insert k v k = some v := by
  simp [CellCacheState.insert]

theorem get_decoded_cell_data_fst_idem (hash64 : List Nat → Nat)
    (h : TypeOptionCellDataHandlerImpl CD CC CF) (σ : CellCacheState CD)
    (cell : Cell) (ft : FieldType) (field : Field) :
    (get_decoded_cell_data hash64 h
        (get_decoded_cell_data hash64 h σ cell ft field).2 cell ft field).1 =
      (get_decoded_cell_data hash64 h σ cell ft field).1 := by
  cases hc : h.cell_data_cache with
  | false =>
    cases hd : h.inner.decode_cell_str cell ft field <;>
      simp [get_decoded_cell_data, hc, hd]
  | true =>
    cases hσ : σ (CellDataCacheKey.new hash64 field ft cell).val with
    | some v => simp [get_decoded_cell_data, hc, hσ]
    | none =>
      cases hd : h.inner.decode_cell_str cell ft field with
      | error e => simp [get_decoded_cell_data, hc, hσ, hd]
      | ok cd =>
        simp [get_decoded_cell_data, hc, hσ, hd, CellCacheState.insert_self]

/-- C6: for an unchanged (field, cell) pair and fixed target kind, a second
call to the typed-value path started from the cache state the first call
left behind returns the same decoded value as the first — for
`get_decoded_cell_data` and for `get_cell_data`, on any combination of
hit/miss paths and whether or not a cache handle was supplied (decode is
a pure function of its arguments throughout this model). -/
theorem c6_typed_value_idempotent (hash64 : List Nat → Nat)
    (h : TypeOptionCellDataHandlerImpl CD CC CF) (σ : CellCacheState CD)
    (cell : Cell) (ft : FieldType) (field : Field) :
    (get_decoded_cell_data hash64 h
        (get_decoded_cell_data hash64 h σ cell ft field).2 cell ft field).1 =
      (get_decoded_cell_data hash64 h σ cell ft field).1 ∧
    (get_cell_data hash64 h
        (get_cell_data hash64 h σ cell ft field).2 cell ft field).1 =
      (get_cell_data hash64 h σ cell ft field).1 := by
  refine ⟨get_decoded_cell_data_fst_idem hash64 h σ cell ft field, ?_⟩
  cases ht : h.inner.transformable with
  | false =>
    simp only [get_cell_data, ht, Bool.false_eq_true, if_false]
    exact get_decoded_cell_data_fst_idem hash64 h σ cell ft field
  | true =>
    cases htr : h.inner.transform_type_option_cell cell ft field with
    | none =>
      simp only [get_cell_data, ht, if_true, htr]
      exact get_decoded_cell_data_fst_idem hash64 h σ cell ft field
    | some v =>
      simp [get_cell_data, ht, htr]

/-- C5 counterexample: a transformable implementer whose transform produces
a value makes `get_cell_data` return that value while the cache holds a
different value under the very `CacheKey` the claim says is consulted,
and the final cache state is untouched — so `get_cell_data` neither
returned the cached value nor stored a decoded result. -/
theorem c5_counterexample_transform_bypasses_cache :
    c5FullCache (CellDataCacheKey.new List.length cPlainField FieldType.RichText
        c7CellA).val = some 7 ∧
    (get_cell_data List.length c5TransHandler c5FullCache c7CellA
        FieldType.RichText cPlainField).1 = Except.ok 42 ∧
    (Except.ok 42 : Except FlowyError Nat) ≠ Except.ok 7 ∧
    (get_cell_data List.length c5TransHandler c5FullCache c7CellA
        FieldType.RichText cPlainField).2 = c5FullCache := by
  refine ⟨rfl, rfl, ?_, rfl⟩
  simp

/-- C5 (amended): `get_decoded_cell_data` — the shared decode path of
compare and filter — checks the decode cache by `CacheKey`, decodes only
on a miss, stores the freshly decoded result back under that key and
returns it, and decodes directly with the state untouched when no cache
handle was supplied; `get_cell_data` — used by read — routes through that
same path except when the implementer is transformable and the transform
produces a value, in which case that value is returned and the cache is
neither consulted nor updated. -/
theorem c5_decode_path_cache_discipline (hash64 : List Nat → Nat)
    (h : TypeOptionCellDataHandlerImpl CD CC CF) (σ : CellCacheState CD)
    (cell : Cell) (ft : FieldType) (field : Field) :
    (∀ v, h.cell_data_cache = true →
      σ (CellDataCacheKey.new hash64 field ft cell).val = some v →
      get_decoded_cell_data hash64 h σ cell ft field = (Except.ok v, σ)) ∧
    (∀ cd, h.cell_data_cache = true →
      σ (CellDataCacheKey.new hash64 field ft cell).val = none →
      h.inner.decode_cell_str cell ft field = Except.ok cd →
      get_decoded_cell_data hash64 h σ cell ft field =
        (Except.ok cd,
          σ.insert (CellDataCacheKey.new hash64 field ft cell).val cd)) ∧
    (∀ e, h.cell_data_cache = true →
      σ (CellDataCacheKey.new hash64 field ft cell).val = none →
      h.inner.decode_cell_str cell ft field = Except.error e →
      get_decoded_cell_data hash64 h σ cell ft field = (Except.error e, σ)) ∧
    (h.cell_data_cache = false →
      get_decoded_cell_data hash64 h σ cell ft field =
        (h.inner.decode_cell_str cell ft field, σ)) ∧
    (h.inner.transformable = false →
      get_cell_data hash64 h σ cell ft field =
        get_decoded_cell_data hash64 h σ cell ft field) ∧
    (h.inner.transformable = true →
      h.inner.transform_type_option_cell cell ft field = none →
      get_cell_data hash64 h σ cell ft field =
        get_decoded_cell_data hash64 h σ cell ft field) ∧
    (∀ v, h.inner.transformable = true →
      h.inner.transform_type_option_cell cell ft field = some v →
      get_cell_data hash64 h σ cell ft field = (Except.ok v, σ)) := by
  refine ⟨?_, ?_, ?_, ?_, ?_, ?_, ?_⟩
  · intro v hc hσ
    simp [get_decoded_cell_data, hc, hσ]
  · intro cd hc hσ hd
    simp [get_decoded_cell_data, hc, hσ, hd]
  · intro e hc hσ hd
    simp [get_decoded_cell_data, hc, hσ, hd]
  · intro hc
    cases hd : h.inner.decode_cell_str cell ft field <;>
      simp [get_decoded_cell_data, hc, hd]
  · intro ht
    simp [get_cell_data, ht]
  · intro ht htr
    simp [get_cell_data, ht, htr]
  · intro v ht htr
    simp [get_cell_data, ht, htr]

theorem c5_decode_path_cache_discipline_witness :
    get_decoded_cell_data List.length c5PlainHandler c5FullCache c7CellA
        FieldType.RichText cPlainField = (Except.ok 7, c5FullCache) ∧
    get_decoded_cell_data List.length c5PlainHandler cEmptyCache c7CellA
        FieldType.RichText cPlainField =
      (Except.ok 5,
        cEmptyCache.insert
          (CellDataCacheKey.new List.length cPlainField FieldType.RichText
            c7CellA).val 5) ∧
    get_decoded_cell_data List.length c5ErrHandler cEmptyCache c7CellA
        FieldType.RichText cPlainField =
      (Except.error ⟨"bad"⟩, cEmptyCache) ∧
    get_decoded_cell_data List.length c5NoCacheHandler c5FullCache c7CellA
        FieldType.RichText cPlainField =
      (c5PlainImpl.decode_cell_str c7CellA FieldType.RichText cPlainField,
        c5FullCache) ∧
    get_cell_data List.length c5PlainHandler c5FullCache c7CellA
        FieldType.RichText cPlainField =
      get_decoded_cell_data List.length c5PlainHandler c5FullCache c7CellA
        FieldType.RichText cPlainField ∧
    get_cell_data List.length c5TransNoneHandler c5FullCache c7CellA
        FieldType.RichText cPlainField =
      get_decoded_cell_data List.length c5TransNoneHandler c5FullCache c7CellA
        FieldType.RichText cPlainField ∧
    get_cell_data List.length c5TransHandler c5FullCache c7CellA
        FieldType.RichText cPlainField = (Except.ok 42, c5FullCache) :=
  ⟨(c5_decode_path_cache_discipline List.length c5PlainHandler c5FullCache
      c7CellA FieldType.RichText cPlainField).1 7 rfl rfl,
    (c5_decode_path_cache_discipline List.length c5PlainHandler cEmptyCache
      c7CellA FieldType.RichText cPlainField).2.1 5 rfl rfl rfl,
    (c5_decode_path_cache_discipline List.length c5ErrHandler cEmptyCache
      c7CellA FieldType.RichText cPlainField).2.2.1 ⟨"bad"⟩ rfl rfl rfl,
    (c5_decode_path_cache_discipline List.length c5NoCacheHandler c5FullCache
      c7CellA FieldType.RichText cPlainField).2.2.2.1 rfl,
    (c5_decode_path_cache_discipline List.length c5PlainHandler c5FullCache
      c7CellA FieldType.RichText cPlainField).2.2.2.2.1 rfl,
    (c5_decode_path_cache_discipline List.length c5TransNoneHandler c5FullCache
      c7CellA FieldType.RichText cPlainField).2.2.2.2.2.1 rfl rfl,
    (c5_decode_path_cache_discipline List.length c5TransHandler c5FullCache
      c7CellA FieldType.RichText cPlainField).2.2.2.2.2.2 42 rfl rfl⟩

end AF
